import Mathlib

/-!
Verification development for the TTK Bot location service
(src/location_service.py): a shallow embedding of the geometry
primitives, region registry, driver state store and tracking engine,
together with theorems about the properties the service is expected
to satisfy.

Coordinates are modelled as rational numbers; all region boundaries in
the configuration are exact decimal literals, so the rational model is
faithful to the Python floats on every computation the service performs.
-/

namespace TTK

/-- A planar point, `x` = longitude, `y` = latitude (matching
`shapely.geometry.Point(longitude, latitude)` in the source). -/
structure Coord where
  x : ℚ
  y : ℚ
deriving DecidableEq, Repr

/-- Is `p` on the closed segment from `a` to `b`?  Collinearity by
cross product plus bounding-box membership. -/
def onSegment (p a b : Coord) : Bool :=
  decide ((b.x - a.x) * (p.y - a.y) = (b.y - a.y) * (p.x - a.x)) &&
  (decide (a.x ≤ p.x) && decide (p.x ≤ b.x) || decide (b.x ≤ p.x) && decide (p.x ≤ a.x)) &&
  (decide (a.y ≤ p.y) && decide (p.y ≤ b.y) || decide (b.y ≤ p.y) && decide (p.y ≤ a.y))

/-- Does the horizontal ray from `p` (towards +x) cross the edge
`a`-`b`?  Standard even-odd ray-casting condition. -/
def edgeCrosses (p a b : Coord) : Bool :=
  (decide (a.y > p.y) != decide (b.y > p.y)) &&
  decide (p.x < a.x + (p.y - a.y) * (b.x - a.x) / (b.y - a.y))

/-- The edges of a polygon given by its vertex ring (the ring is closed
implicitly, exactly as `shapely.geometry.Polygon` closes the shell). -/
def polygonEdges (poly : List Coord) : List (Coord × Coord) :=
  poly.zip (poly.drop 1 ++ poly.take 1)

/-- Is `p` on the boundary of the polygon? -/
def pointOnBoundary (poly : List Coord) (p : Coord) : Bool :=
  (polygonEdges poly).any (fun e => onSegment p e.1 e.2)

/-- Number of polygon edges crossed by the horizontal ray from `p`. -/
def crossingCount (poly : List Coord) (p : Coord) : ℕ :=
  ((polygonEdges poly).filter (fun e => edgeCrosses p e.1 e.2)).length

/-- Shallow embedding of `region.polygon.contains(point)`:
the `contains` test of `shapely` holds exactly when the point lies
strictly inside the polygon interior (boundary points excluded).
For the simple polygons used by the service this is the even-odd
crossing test together with explicit boundary exclusion. -/
def polygonContains (poly : List Coord) (p : Coord) : Bool :=
  !pointOnBoundary poly p && crossingCount poly p % 2 == 1

/-- The vertex ring of an axis-aligned rectangle listed in the
SW, SE, NE, NW order used by every region in the configuration. -/
def rectRing (x1 y1 x2 y2 : ℚ) : List Coord :=
  [⟨x1, y1⟩, ⟨x2, y1⟩, ⟨x2, y2⟩, ⟨x1, y2⟩]


/-- Dataclass `LocationUpdate`: driver id, coordinates, timestamp and the
detected region.  Timestamps are modelled as integers. -/
structure LocationUpdate where
  driver_id : String
  latitude : ℚ
  longitude : ℚ
  timestamp : ℤ
  region : Option String
deriving DecidableEq, Repr

/-- Dataclass `DeliveryRegion`: name, polygon boundary, active flag. -/
structure DeliveryRegion where
  name : String
  polygon : List Coord
  is_active : Bool := true
deriving DecidableEq, Repr

/-- A region-transition callback, as registered through
`add_region_transition_callback`.  It receives
`(driver_id, old_region, new_region, new_location)` and either returns
normally or raises an exception (modelled with `Except`). -/
def Callback : Type :=
  String → Option String → Option String → LocationUpdate → Except String Unit

/-- The mutable state of a `LocationService` instance: the driver
location store, the region registry (in registration order, as a Python
dict preserves insertion order) and the registered callbacks. -/
structure ServiceState where
  driver_locations : String → Option LocationUpdate
  delivery_regions : List DeliveryRegion
  region_transition_callbacks : List Callback

/-- The region table built by `_initialize_regions`, with the exact
coordinates and insertion order of the source. -/
def initialRegions : List DeliveryRegion :=
  [ ⟨"philly_north",
      [⟨-75.2000, 39.9800⟩, ⟨-75.1200, 39.9800⟩, ⟨-75.1200, 40.0200⟩, ⟨-75.2000, 40.0200⟩], true⟩,
    ⟨"philly_south",
      [⟨-75.2200, 39.9200⟩, ⟨-75.1400, 39.9200⟩, ⟨-75.1400, 39.9800⟩, ⟨-75.2200, 39.9800⟩], true⟩,
    ⟨"philly_west",
      [⟨-75.2800, 39.9400⟩, ⟨-75.2000, 39.9400⟩, ⟨-75.2000, 40.0000⟩, ⟨-75.2800, 40.0000⟩], true⟩,
    ⟨"philly_northeast",
      [⟨-75.1200, 40.0200⟩, ⟨-75.0400, 40.0200⟩, ⟨-75.0400, 40.0800⟩, ⟨-75.1200, 40.0800⟩], true⟩,
    ⟨"jersey_camden",
      [⟨-75.1400, 39.8800⟩, ⟨-75.0200, 39.8800⟩, ⟨-75.0200, 39.9600⟩, ⟨-75.1400, 39.9600⟩], true⟩,
    ⟨"jersey_gloucester",
      [⟨-75.2000, 39.7800⟩, ⟨-75.0800, 39.7800⟩, ⟨-75.0800, 39.8800⟩, ⟨-75.2000, 39.8800⟩], true⟩,
    ⟨"jersey_burlington",
      [⟨-74.9800, 39.8000⟩, ⟨-74.7000, 39.8000⟩, ⟨-74.7000, 40.1000⟩, ⟨-74.9800, 40.1000⟩], true⟩,
    ⟨"delaware_county",
      [⟨-75.4000, 39.8200⟩, ⟨-75.2200, 39.8200⟩, ⟨-75.2200, 39.9800⟩, ⟨-75.4000, 39.9800⟩], true⟩,
    ⟨"montgomery_county",
      [⟨-75.4800, 40.0000⟩, ⟨-75.2000, 40.0000⟩, ⟨-75.2000, 40.2000⟩, ⟨-75.4800, 40.2000⟩], true⟩,
    ⟨"chester_county",
      [⟨-75.8000, 39.8000⟩, ⟨-75.4000, 39.8000⟩, ⟨-75.4000, 40.1000⟩, ⟨-75.8000, 40.1000⟩], true⟩ ]

/-- The state of a freshly constructed `LocationService` with the given
callbacks registered: empty driver store, the ten configured regions. -/
def initialState (cbs : List Callback) : ServiceState :=
  { driver_locations := fun _ => none
    delivery_regions := initialRegions
    region_transition_callbacks := cbs }

/-! ## Operations (src/location_service.py) -/

/-- Embedding of `LocationService._detect_region`: iterate the regions in
registration order and return the name of the first active region whose
polygon contains `Point(longitude, latitude)`. -/
def detect_region (regions : List DeliveryRegion) (latitude longitude : ℚ) :
    Option String :=
  (regions.find? fun r =>
      r.is_active && polygonContains r.polygon ⟨longitude, latitude⟩).map
    DeliveryRegion.name

/-- Observable actions performed while `update_location` holds the
location lock, in execution order. -/
inductive Action where
  | callbackInvoked (cbIndex : ℕ) (driver_id : String)
      (fromRegion toRegion : Option String) (loc : LocationUpdate)
  | storeCommit (driver_id : String) (loc : LocationUpdate)
deriving DecidableEq, Repr

/-- The callback loop of `_check_region_transition`: each callback is
invoked inside a try/except, so an exception from one callback is
caught and logged and the loop proceeds to the next callback. -/
def runCallbackLoop (d : String) (oldR newR : Option String)
    (loc : LocationUpdate) : List Callback → ℕ → List Action
  | [], _ => []
  | cb :: rest, i =>
    Action.callbackInvoked i d oldR newR loc ::
      (match cb d oldR newR loc with
       | Except.ok _ => runCallbackLoop d oldR newR loc rest (i + 1)
       | Except.error _ => runCallbackLoop d oldR newR loc rest (i + 1))

/-- Embedding of `LocationService._check_region_transition`: reads the previous
entry from the store; on a first update or an unchanged region, no
callback fires; otherwise every registered callback is invoked with
`(driver_id, old_region, new_region, new_location)`. -/
def check_region_transition (s : ServiceState) (driver_id : String)
    (newLoc : LocationUpdate) : List Action :=
  match s.driver_locations driver_id with
  | none => []
  | some oldLoc =>
    if oldLoc.region = newLoc.region then []
    else runCallbackLoop driver_id oldLoc.region newLoc.region newLoc
      s.region_transition_callbacks 0

/-- The `LocationUpdate` record constructed by `update_location` for a
given ping, with the region freshly detected from the registry. -/
def makeLocationUpdate (s : ServiceState) (driver_id : String)
    (latitude longitude : ℚ) (timestamp : ℤ) : LocationUpdate :=
  { driver_id := driver_id
    latitude := latitude
    longitude := longitude
    timestamp := timestamp
    region := detect_region s.delivery_regions latitude longitude }

/-- The success dictionary returned by `update_location`. -/
structure TrackingResult where
  status : String
  driver_id : String
  region : Option String
  timestamp : ℤ
  latitude : ℚ
  longitude : ℚ
deriving DecidableEq, Repr

/-- Embedding of `LocationService.update_location`: detect the region, build the
`LocationUpdate`, then under the lock run the transition check (which
invokes callbacks) and afterwards store the new record.  The returned
trace lists the actions in execution order: note that the store commit
comes after the callback invocations, exactly as in the source.
`timestamp` is optional and defaults to the current time `now`. -/
def update_location (s : ServiceState) (driver_id : String)
    (latitude longitude : ℚ) (timestamp : Option ℤ) (now : ℤ) :
    ServiceState × List Action × TrackingResult :=
  let t := timestamp.getD now
  let loc := makeLocationUpdate s driver_id latitude longitude t
  let actions := check_region_transition s driver_id loc
  let s' : ServiceState :=
    { s with driver_locations := fun d =>
        if d = driver_id then some loc else s.driver_locations d }
  (s', actions ++ [Action.storeCommit driver_id loc],
    { status := "success"
      driver_id := driver_id
      region := loc.region
      timestamp := t
      latitude := latitude
      longitude := longitude })

/-- The `POST /location-update` route body after JSON parsing
succeeded: the route performs no range validation on the coordinates
(only `float()` conversion, which any numeric value passes), calls
`update_location` and returns HTTP 200 with its result. -/
def location_update_route (s : ServiceState) (driver_id : String)
    (latitude longitude : ℚ) (timestamp : Option ℤ) (now : ℤ) :
    ServiceState × List Action × ℕ × TrackingResult :=
  let (s', actions, result) :=
    update_location s driver_id latitude longitude timestamp now
  (s', actions, 200, result)

/-- Executing a batch of pings in order: each element is
`(driver_id, latitude, longitude, timestamp, now)`. -/
def run_updates (s : ServiceState) :
    List (String × ℚ × ℚ × Option ℤ × ℤ) → ServiceState
  | [] => s
  | u :: rest =>
    run_updates (update_location s u.1 u.2.1 u.2.2.1 u.2.2.2.1 u.2.2.2.2).1 rest

/-! ## Helper lemmas -/

/-- Is the action a callback invocation? -/
def isCallbackAction : Action → Bool
  | Action.callbackInvoked .. => true
  | Action.storeCommit .. => false

/-- Does every callback invocation in the trace come after some store
commit?  Scans the trace left to right, tracking whether a commit has
already occurred. -/
def commitPrecedesCallbacks (acts : List Action) : Bool :=
  (acts.foldl
    (fun st a =>
      match a with
      | Action.storeCommit .. => (true, st.2)
      | Action.callbackInvoked .. => (st.1, st.2 && st.1))
    (false, true)).2

/-- The store region-consistency invariant: every stored entry carries
exactly the region that `_detect_region` assigns to its coordinates. -/
def StoreConsistent (s : ServiceState) : Prop :=
  ∀ d loc, s.driver_locations d = some loc →
    loc.region = detect_region s.delivery_regions loc.latitude loc.longitude


/-! ## Concurrency model for the locked critical section

`update_location` computes the region outside the lock (a pure
computation on thread-local arguments) and then, holding
`location_lock`, performs two operations on the shared store: the read
of the previous entry in `_check_region_transition` and the write of the
complete new `LocationUpdate` record.  A two-thread execution for the
same driver is modelled as an interleaving of those per-thread shared
store operations; the theorem below holds for every interleaving, even
without appealing to the mutual exclusion the lock additionally
provides. -/

/-- The shared driver-location store. -/
def Store : Type := String → Option LocationUpdate

/-- A shared-store operation performed inside the critical section. -/
inductive ThreadStep where
  | readStep
  | writeStep
deriving DecidableEq, Repr

/-- Effect of one thread step on the store; `u` gives the complete
record each thread writes (thread ids are `true` and `false`). A read
(the transition check plus callbacks) does not mutate the store; a
write stores the full record under its driver id. -/
def applyThreadStep (u : Bool → LocationUpdate) (t : Bool)
    (st : ThreadStep) (store : Store) : Store :=
  match st with
  | ThreadStep.readStep => store
  | ThreadStep.writeStep =>
    fun d => if d = (u t).driver_id then some (u t) else store d

def runThreadSteps (u : Bool → LocationUpdate) :
    List (Bool × ThreadStep) → Store → Store
  | [], store => store
  | a :: rest, store => runThreadSteps u rest (applyThreadStep u a.1 a.2 store)

/-- The shared-store operations of one `update_location` call, in
program order: read the previous entry, then write the new one. -/
def threadProgram (t : Bool) : List (Bool × ThreadStep) :=
  [(t, ThreadStep.readStep), (t, ThreadStep.writeStep)]

/-- Predicate: `l` is an interleaving of the two thread programs; its
projection to each thread is exactly the program order of that thread. -/
def isInterleaving (l : List (Bool × ThreadStep)) : Bool :=
  (l.filter (fun a => a.1) == threadProgram true) &&
  (l.filter (fun a => !a.1) == threadProgram false)

/-- Final store after two concurrent `update_location` calls for the
same driver `d` (coordinates and timestamps `1` and `2`), executed
under the interleaving `l`. -/
def run_concurrent_updates (s : ServiceState) (d : String)
    (lat1 lon1 : ℚ) (t1 : ℤ) (lat2 lon2 : ℚ) (t2 : ℤ)
    (l : List (Bool × ThreadStep)) : Store :=
  runThreadSteps
    (fun t => if t then makeLocationUpdate s d lat1 lon1 t1
              else makeLocationUpdate s d lat2 lon2 t2)
    l s.driver_locations

/-- A callback that always returns normally. -/
def noopCallback : Callback := fun _ _ _ _ => Except.ok ()

/-- A callback that always raises an exception. -/
def failingCallback : Callback := fun _ _ _ _ => Except.error "boom"

/-! ## Theorems -/

theorem rectRing_contains_iff (x1 y1 x2 y2 : ℚ) (hx : x1 < x2) (hy : y1 < y2)
    (p : Coord) :
    polygonContains (rectRing x1 y1 x2 y2) p = true ↔
      x1 < p.x ∧ p.x < x2 ∧ y1 < p.y ∧ p.y < y2 := by
  by_cases hA : p.y < y1
  · constructor
    · intro hcontains
      exfalso
      simp [polygonContains, pointOnBoundary, crossingCount, polygonEdges, rectRing,
        onSegment, edgeCrosses, hA, lt_trans hA hy, sub_self, mul_zero, zero_div,
        add_zero, gt_iff_lt] at hcontains
    · rintro ⟨-, -, h3, -⟩
      exact absurd hA (not_lt.mpr h3.le)
  · by_cases hB : p.y < y2
    · by_cases hpx2 : p.x < x2
      · by_cases hpx1 : p.x < x1
        · constructor
          · intro hcontains
            exfalso
            simp [polygonContains, pointOnBoundary, crossingCount, polygonEdges,
              rectRing, onSegment, edgeCrosses, hA, hB, hpx1, hpx2, sub_self,
              mul_zero, zero_div, add_zero, gt_iff_lt] at hcontains
          · rintro ⟨h1, -, -, -⟩
            exact absurd hpx1 (not_lt.mpr h1.le)
        · -- interior column and row: exactly one ray crossing
          simp only [polygonContains, pointOnBoundary, crossingCount, polygonEdges,
            rectRing, onSegment, edgeCrosses, List.zip, List.zipWith, List.drop,
            List.take, List.any, List.filter]
          simp [hA, hB, hpx1, hpx2, sub_self, mul_zero, zero_div, add_zero, gt_iff_lt]
          constructor
          · rintro ⟨hAB, hDA⟩
            constructor
            · rcases hDA with (⟨-, hne⟩ | hlt) | hgood
              · exact lt_of_le_of_ne (not_lt.mp hpx1) (Ne.symm (sub_ne_zero.mp hne))
              · exact hlt
              · exact absurd hgood (asymm hB)
            · rcases hAB with (⟨-, hne⟩ | hlt) | hgood
              · exact lt_of_le_of_ne (not_lt.mp hA) (Ne.symm (sub_ne_zero.mp hne))
              · exact absurd hlt (asymm hpx2)
              · exact hgood
          · rintro ⟨h1, h3⟩
            exact ⟨Or.inr h3, Or.inl (Or.inr h1)⟩
      · constructor
        · intro hcontains
          exfalso
          have hpx1 : ¬ p.x < x1 := fun h => hpx2 (lt_trans h hx)
          simp [polygonContains, pointOnBoundary, crossingCount, polygonEdges,
            rectRing, onSegment, edgeCrosses, hA, hB, hpx1, hpx2, sub_self,
            mul_zero, zero_div, add_zero, gt_iff_lt] at hcontains
        · rintro ⟨-, h2, -, -⟩
          exact absurd h2 hpx2
    · constructor
      · intro hcontains
        exfalso
        have hA' : ¬ p.y < y1 := hA
        simp [polygonContains, pointOnBoundary, crossingCount, polygonEdges,
          rectRing, onSegment, edgeCrosses, hA', hB, sub_self, mul_zero, zero_div,
          add_zero, gt_iff_lt] at hcontains
      · rintro ⟨-, -, -, h4⟩
        exact absurd h4 hB

/-! ## Data model (src/location_service.py) -/
theorem rectRing_contains_eq_false (x1 y1 x2 y2 : ℚ) (hx : x1 < x2)
    (hy : y1 < y2) (p : Coord)
    (h : ¬(x1 < p.x ∧ p.x < x2 ∧ y1 < p.y ∧ p.y < y2)) :
    polygonContains (rectRing x1 y1 x2 y2) p = false := by
  cases hb : polygonContains (rectRing x1 y1 x2 y2) p
  · rfl
  · exact absurd ((rectRing_contains_iff x1 y1 x2 y2 hx hy p).mp hb) h

theorem detect_region_eq_none_iff (regions : List DeliveryRegion)
    (lat lon : ℚ) :
    detect_region regions lat lon = none ↔
      ∀ r ∈ regions, r.is_active = true →
        polygonContains r.polygon ⟨lon, lat⟩ = false := by
  simp only [detect_region, Option.map_eq_none', List.find?_eq_none,
    Bool.and_eq_true, not_and]
  constructor
  · intro h r hr hact
    simpa using h r hr hact
  · intro h r hr hact
    simp [h r hr hact]

theorem detect_region_eq_some_elim (regions : List DeliveryRegion)
    (lat lon : ℚ) (n : String) (h : detect_region regions lat lon = some n) :
    ∃ r ∈ regions, r.name = n ∧ r.is_active = true ∧
      polygonContains r.polygon ⟨lon, lat⟩ = true := by
  simp only [detect_region, Option.map_eq_some'] at h
  obtain ⟨r, hfind, hname⟩ := h
  have hmem := List.mem_of_find?_eq_some hfind
  have hpred := List.find?_some hfind
  simp only [Bool.and_eq_true] at hpred
  exact ⟨r, hmem, hname, hpred.1, hpred.2⟩

theorem runCallbackLoop_eq (d : String) (oldR newR : Option String)
    (loc : LocationUpdate) (cbs : List Callback) (i : ℕ) :
    runCallbackLoop d oldR newR loc cbs i =
      (List.range cbs.length).map
        (fun j => Action.callbackInvoked (i + j) d oldR newR loc) := by
  induction cbs generalizing i with
  | nil => simp [runCallbackLoop]
  | cons cb rest ih =>
    simp only [runCallbackLoop, List.length_cons, List.range_succ_eq_map,
      List.map_cons, List.map_map]
    have hrec : (match cb d oldR newR loc with
        | Except.ok _ => runCallbackLoop d oldR newR loc rest (i + 1)
        | Except.error _ => runCallbackLoop d oldR newR loc rest (i + 1)) =
        runCallbackLoop d oldR newR loc rest (i + 1) := by
      cases cb d oldR newR loc <;> rfl
    rw [hrec, ih]
    refine congrArg₂ List.cons (by simp) ?_
    apply List.map_congr_left
    intro j _
    simp only [Function.comp_apply]
    congr 1
    omega

theorem update_location_regions_eq (s : ServiceState) (d : String)
    (lat lon : ℚ) (ts : Option ℤ) (now : ℤ) :
    (update_location s d lat lon ts now).1.delivery_regions =
      s.delivery_regions := rfl

theorem update_location_callbacks_eq (s : ServiceState) (d : String)
    (lat lon : ℚ) (ts : Option ℤ) (now : ℤ) :
    (update_location s d lat lon ts now).1.region_transition_callbacks =
      s.region_transition_callbacks := rfl

theorem update_location_store_self (s : ServiceState) (d : String)
    (lat lon : ℚ) (ts : Option ℤ) (now : ℤ) :
    (update_location s d lat lon ts now).1.driver_locations d =
      some (makeLocationUpdate s d lat lon (ts.getD now)) := by
  simp [update_location]

theorem update_location_store_other (s : ServiceState) (d : String)
    (lat lon : ℚ) (ts : Option ℤ) (now : ℤ) (d' : String) (hne : d' ≠ d) :
    (update_location s d lat lon ts now).1.driver_locations d' =
      s.driver_locations d' := by
  simp [update_location, hne]

theorem run_updates_regions_eq (s : ServiceState)
    (upds : List (String × ℚ × ℚ × Option ℤ × ℤ)) :
    (run_updates s upds).delivery_regions = s.delivery_regions := by
  induction upds generalizing s with
  | nil => rfl
  | cons u rest ih => simpa [run_updates] using ih _

theorem update_location_preserves_consistent (s : ServiceState)
    (h : StoreConsistent s) (d : String) (lat lon : ℚ) (ts : Option ℤ)
    (now : ℤ) : StoreConsistent (update_location s d lat lon ts now).1 := by
  intro d' loc' hl
  rw [update_location_regions_eq]
  by_cases hd : d' = d
  · subst hd
    rw [update_location_store_self] at hl
    cases hl
    rfl
  · rw [update_location_store_other s d lat lon ts now d' hd] at hl
    exact h d' loc' hl

theorem run_updates_consistent (s : ServiceState) (h : StoreConsistent s)
    (upds : List (String × ℚ × ℚ × Option ℤ × ℤ)) :
    StoreConsistent (run_updates s upds) := by
  induction upds generalizing s with
  | nil => exact h
  | cons u rest ih =>
    exact ih _ (update_location_preserves_consistent s h u.1 u.2.1 u.2.2.1
      u.2.2.2.1 u.2.2.2.2)

theorem initialState_consistent (cbs : List Callback) :
    StoreConsistent (initialState cbs) := by
  intro d loc h
  simp [initialState] at h

theorem runThreadSteps_no_write (u : Bool → LocationUpdate)
    (l : List (Bool × ThreadStep)) (store : Store)
    (h : ∀ t, (t, ThreadStep.writeStep) ∉ l) :
    runThreadSteps u l store = store := by
  induction l generalizing store with
  | nil => rfl
  | cons a rest ih =>
    obtain ⟨t, st⟩ := a
    cases st with
    | readStep =>
      exact ih store fun t' hmem => h t' (List.mem_cons_of_mem _ hmem)
    | writeStep => exact absurd (List.mem_cons_self _ _) (h t)

theorem runThreadSteps_write_wins (u : Bool → LocationUpdate) (D : String)
    (hD : ∀ t, (u t).driver_id = D) (l : List (Bool × ThreadStep))
    (store : Store)
    (hw : ∃ t, (t, ThreadStep.writeStep) ∈ l) :
    runThreadSteps u l store D = some (u true) ∨
      runThreadSteps u l store D = some (u false) := by
  induction l generalizing store with
  | nil => simp at hw
  | cons a rest ih =>
    by_cases hrest : ∃ t, (t, ThreadStep.writeStep) ∈ rest
    · exact ih _ hrest
    · obtain ⟨t, hmem⟩ := hw
      rcases List.mem_cons.mp hmem with heq | hmem'
      · subst heq
        push_neg at hrest
        simp only [runThreadSteps]
        rw [runThreadSteps_no_write u rest _ hrest]
        cases t
        · refine Or.inr ?_
          simp [applyThreadStep, hD]
        · refine Or.inl ?_
          simp [applyThreadStep, hD]
      · exact absurd ⟨t, hmem'⟩ hrest

/-! ## Concrete evaluations used by witnesses -/

theorem contains_philly_north_sample :
    polygonContains
      [(⟨-75.2000, 39.9800⟩ : Coord), ⟨-75.1200, 39.9800⟩,
        ⟨-75.1200, 40.0200⟩, ⟨-75.2000, 40.0200⟩]
      ⟨-75.15, 39.99⟩ = true := by
  apply (rectRing_contains_iff (-75.2000) 39.9800 (-75.1200) 40.0200
    (by norm_num) (by norm_num) ⟨-75.15, 39.99⟩).mpr
  refine ⟨by norm_num, by norm_num, by norm_num, by norm_num⟩

theorem detect_region_sample_inside :
    detect_region initialRegions 39.99 (-75.15) = some "philly_north" := by
  simp only [detect_region, initialRegions]
  rw [List.find?_cons_of_pos]
  · rfl
  · simp [contains_philly_north_sample]

theorem detect_region_sample_outside :
    detect_region initialRegions 39.5 (-74.5) = none := by
  apply (detect_region_eq_none_iff _ _ _).mpr
  intro r hr hact
  fin_cases hr <;>
    exact rectRing_contains_eq_false _ _ _ _ (by norm_num) (by norm_num) _
      (by norm_num)

theorem detect_region_out_of_range (lat lon : ℚ)
    (h : lat < -90 ∨ 90 < lat ∨ lon < -180 ∨ 180 < lon) :
    detect_region initialRegions lat lon = none := by
  apply (detect_region_eq_none_iff _ _ _).mpr
  intro r hr hact
  have hb : ∀ x1 y1 x2 y2 : ℚ, x1 < x2 → y1 < y2 →
      -180 < x1 → x2 < 180 → -90 < y1 → y2 < 90 →
      polygonContains (rectRing x1 y1 x2 y2) ⟨lon, lat⟩ = false := by
    intro x1 y1 x2 y2 hx hy h1 h2 h3 h4
    apply rectRing_contains_eq_false _ _ _ _ hx hy
    rintro ⟨ha, hb2, hc, hd⟩
    simp only at ha hb2 hc hd
    rcases h with h | h | h | h <;> linarith
  fin_cases hr <;>
    exact hb _ _ _ _ (by norm_num) (by norm_num) (by norm_num) (by norm_num)
      (by norm_num) (by norm_num)

/-! ## Claims -/

/-- C2: after any sequence of `update_location` calls on a freshly
constructed service, every stored driver entry whose region is
non-absent lies inside the polygon of that region under the point-in-polygon
test, and the stored region is absent whenever no active region
contains the stored coordinate. -/
theorem region_containment_invariant (cbs : List Callback)
    (upds : List (String × ℚ × ℚ × Option ℤ × ℤ)) (d : String)
    (loc : LocationUpdate)
    (hloc : (run_updates (initialState cbs) upds).driver_locations d =
      some loc) :
    (∀ n, loc.region = some n →
      ∃ r ∈ initialRegions, r.name = n ∧ r.is_active = true ∧
        polygonContains r.polygon ⟨loc.longitude, loc.latitude⟩ = true) ∧
    ((∀ r ∈ initialRegions, r.is_active = true →
        polygonContains r.polygon ⟨loc.longitude, loc.latitude⟩ = false) →
      loc.region = none) := by
  have hreg := run_updates_consistent _ (initialState_consistent cbs) upds d
    loc hloc
  rw [run_updates_regions_eq] at hreg
  have hreg' : loc.region =
      detect_region initialRegions loc.latitude loc.longitude := hreg
  constructor
  · intro n hn
    rw [hreg'] at hn
    exact detect_region_eq_some_elim _ _ _ _ hn
  · intro hnone
    rw [hreg']
    exact (detect_region_eq_none_iff _ _ _).mpr hnone

/-- C2 witness: one ping inside the `philly_north` square. -/
theorem region_containment_invariant_witness :
    (run_updates (initialState []) [("d1", 39.99, -75.15, some 0, 0)]).driver_locations
        "d1" = some (makeLocationUpdate (initialState []) "d1" 39.99 (-75.15) 0) ∧
    (∀ n, (makeLocationUpdate (initialState []) "d1" 39.99 (-75.15) 0).region = some n →
      ∃ r ∈ initialRegions, r.name = n ∧ r.is_active = true ∧
        polygonContains r.polygon
          ⟨(makeLocationUpdate (initialState []) "d1" 39.99 (-75.15) 0).longitude,
            (makeLocationUpdate (initialState []) "d1" 39.99 (-75.15) 0).latitude⟩ = true) := by
  have pf : (run_updates (initialState []) [("d1", 39.99, -75.15, some 0, 0)]).driver_locations
      "d1" = some (makeLocationUpdate (initialState []) "d1" 39.99 (-75.15) 0) :=
    update_location_store_self (initialState []) "d1" 39.99 (-75.15) (some 0) 0
  exact ⟨pf, (region_containment_invariant [] _ "d1" _ pf).1⟩

/-- C3: calling `update_location` twice in a row with the same driver
and the same coordinates invokes no region-transition callback during
the second call: its trace contains no callback action. -/
theorem second_identical_update_fires_no_callback (s : ServiceState)
    (d : String) (lat lon : ℚ) (ts ts' : Option ℤ) (now now' : ℤ) :
    ((update_location (update_location s d lat lon ts now).1 d lat lon
        ts' now').2.1).filter isCallbackAction = [] := by
  simp [update_location, check_region_transition, makeLocationUpdate,
    isCallbackAction]

/-- C10: `update_location` only creates or replaces the store entry
keyed by the updated driver: every other driver entry is unchanged and
the region registry (names, polygons, active flags) is unchanged. -/
theorem update_location_frame (s : ServiceState) (d : String)
    (lat lon : ℚ) (ts : Option ℤ) (now : ℤ) (d' : String) (hne : d' ≠ d) :
    (update_location s d lat lon ts now).1.driver_locations d' =
        s.driver_locations d' ∧
    (update_location s d lat lon ts now).1.delivery_regions =
        s.delivery_regions ∧
    (update_location s d lat lon ts now).1.driver_locations d =
        some (makeLocationUpdate s d lat lon (ts.getD now)) :=
  ⟨update_location_store_other s d lat lon ts now d' hne,
    update_location_regions_eq s d lat lon ts now,
    update_location_store_self s d lat lon ts now⟩

theorem runCallbackLoop_all_callbackActions (d : String)
    (oldR newR : Option String) (loc : LocationUpdate) (cbs : List Callback)
    (i : ℕ) :
    (runCallbackLoop d oldR newR loc cbs i).all isCallbackAction = true := by
  rw [runCallbackLoop_eq]
  simp only [List.all_eq_true, List.mem_map]
  rintro a ⟨j, -, rfl⟩
  rfl

theorem check_region_transition_all_callbackActions (s : ServiceState)
    (d : String) (loc : LocationUpdate) :
    (check_region_transition s d loc).all isCallbackAction = true := by
  cases hdl : s.driver_locations d with
  | none => simp [check_region_transition, hdl]
  | some oldLoc =>
    by_cases h : oldLoc.region = loc.region
    · simp [check_region_transition, hdl, h]
    · simp only [check_region_transition, hdl]
      rw [if_neg h]
      exact runCallbackLoop_all_callbackActions d oldLoc.region loc.region loc
        s.region_transition_callbacks 0

/-- C4 (amended): in every `update_location` execution the transition
callbacks run first, against the pre-update store, and the store commit
is the final trace action; the commit happens regardless of what the
callbacks return (so a callback failure cannot roll it back), but a
callback that reads the store observes the previous state, not the new
one. -/
theorem callbacks_run_before_commit (s : ServiceState) (d : String)
    (lat lon : ℚ) (ts : Option ℤ) (now : ℤ) :
    (update_location s d lat lon ts now).2.1 =
      check_region_transition s d
          (makeLocationUpdate s d lat lon (ts.getD now)) ++
        [Action.storeCommit d (makeLocationUpdate s d lat lon (ts.getD now))] ∧
    (check_region_transition s d
        (makeLocationUpdate s d lat lon (ts.getD now))).all
      isCallbackAction = true ∧
    (update_location s d lat lon ts now).1.driver_locations d =
      some (makeLocationUpdate s d lat lon (ts.getD now)) :=
  ⟨rfl,
    check_region_transition_all_callbackActions s d
      (makeLocationUpdate s d lat lon (ts.getD now)),
    update_location_store_self s d lat lon ts now⟩

/-- C4 (counterexample): in the concrete run below the driver moves out
of `philly_north` with one registered callback, and the resulting trace
invokes the callback before the store commit — the new state is not yet
committed when the first callback runs, refuting the claim that the
write precedes the callbacks. -/
theorem commit_before_callbacks_fails :
    commitPrecedesCallbacks
      ((update_location
          (update_location (initialState [noopCallback]) "d1" 39.99 (-75.15)
            (some 0) 0).1
          "d1" 39.5 (-74.5) (some 1) 1).2.1) = false := by
  have htrace :
      (update_location
          (update_location (initialState [noopCallback]) "d1" 39.99 (-75.15)
            (some 0) 0).1
          "d1" 39.5 (-74.5) (some 1) 1).2.1 =
        [Action.callbackInvoked 0 "d1" (some "philly_north") none
            (makeLocationUpdate
              (update_location (initialState [noopCallback]) "d1" 39.99
                (-75.15) (some 0) 0).1 "d1" 39.5 (-74.5) 1),
          Action.storeCommit "d1"
            (makeLocationUpdate
              (update_location (initialState [noopCallback]) "d1" 39.99
                (-75.15) (some 0) 0).1 "d1" 39.5 (-74.5) 1)] := by
    simp [update_location, check_region_transition, makeLocationUpdate,
      initialState, runCallbackLoop, noopCallback,
      detect_region_sample_inside, detect_region_sample_outside]
  rw [htrace]
  rfl

/-- C5: callback failures are isolated: even when a registered callback
raises an exception on the transition, every callback (including the
ones registered after it) is still invoked with the same transition, in
registration order, and `update_location` still returns its success
result with the new state committed. -/
theorem callback_failure_isolated (s : ServiceState) (d : String)
    (lat lon : ℚ) (ts : Option ℤ) (now : ℤ) (oldLoc : LocationUpdate)
    (i : ℕ) (cb : Callback) (err : String)
    (hold : s.driver_locations d = some oldLoc)
    (hchange : oldLoc.region ≠
      (makeLocationUpdate s d lat lon (ts.getD now)).region)
    (hcb : s.region_transition_callbacks.get? i = some cb)
    (hraises : cb d oldLoc.region
        (makeLocationUpdate s d lat lon (ts.getD now)).region
        (makeLocationUpdate s d lat lon (ts.getD now)) = Except.error err) :
    (update_location s d lat lon ts now).2.1 =
      ((List.range s.region_transition_callbacks.length).map fun j =>
        Action.callbackInvoked j d oldLoc.region
          (makeLocationUpdate s d lat lon (ts.getD now)).region
          (makeLocationUpdate s d lat lon (ts.getD now))) ++
      [Action.storeCommit d (makeLocationUpdate s d lat lon (ts.getD now))] ∧
    (update_location s d lat lon ts now).2.2.status = "success" ∧
    (update_location s d lat lon ts now).1.driver_locations d =
      some (makeLocationUpdate s d lat lon (ts.getD now)) := by
  refine ⟨?_, rfl, update_location_store_self s d lat lon ts now⟩
  show check_region_transition s d
      (makeLocationUpdate s d lat lon (ts.getD now)) ++
      [Action.storeCommit d (makeLocationUpdate s d lat lon (ts.getD now))] = _
  simp only [check_region_transition, hold]
  rw [if_neg hchange, runCallbackLoop_eq]
  simp

/-- C5 witness: with the always-raising callback registered, a
transition out of `philly_north` still invokes it and the update still
succeeds with the new state committed. -/
theorem callback_failure_isolated_witness :
    (update_location (initialState [failingCallback]) "d1" 39.99 (-75.15)
          (some 0) 0).1.driver_locations "d1" =
        some (makeLocationUpdate (initialState [failingCallback]) "d1" 39.99
          (-75.15) 0) ∧
    (update_location
        (update_location (initialState [failingCallback]) "d1" 39.99 (-75.15)
          (some 0) 0).1 "d1" 39.5 (-74.5) (some 1) 1).2.2.status =
      "success" ∧
    (update_location
        (update_location (initialState [failingCallback]) "d1" 39.99 (-75.15)
          (some 0) 0).1 "d1" 39.5 (-74.5) (some 1) 1).1.driver_locations
        "d1" =
      some (makeLocationUpdate
        (update_location (initialState [failingCallback]) "d1" 39.99 (-75.15)
          (some 0) 0).1 "d1" 39.5 (-74.5) 1) := by
  have hold : (update_location (initialState [failingCallback]) "d1" 39.99
      (-75.15) (some 0) 0).1.driver_locations "d1" =
      some (makeLocationUpdate (initialState [failingCallback]) "d1" 39.99
        (-75.15) 0) :=
    update_location_store_self (initialState [failingCallback]) "d1" 39.99
      (-75.15) (some 0) 0
  have hres := callback_failure_isolated
    (update_location (initialState [failingCallback]) "d1" 39.99 (-75.15)
      (some 0) 0).1
    "d1" 39.5 (-74.5) (some 1) 1
    (makeLocationUpdate (initialState [failingCallback]) "d1" 39.99 (-75.15) 0)
    0 failingCallback "boom" hold
    (by simp [makeLocationUpdate, initialState, update_location,
      detect_region_sample_inside, detect_region_sample_outside])
    rfl rfl
  exact ⟨hold, hres.2.1, hres.2.2⟩

/-- C7: a ping that reclassifies a driver from its previous region A to
a different value B fires exactly one transition event with from=A and
to=B to each registered callback, in registration order (in particular
a region-to-absent move fires exactly one event with `to` absent), and
a first-ever ping fires none. -/
theorem transition_fires_once_per_callback (s : ServiceState) (d : String)
    (lat lon : ℚ) (ts : Option ℤ) (now : ℤ) :
    (∀ oldLoc, s.driver_locations d = some oldLoc →
      oldLoc.region ≠ (makeLocationUpdate s d lat lon (ts.getD now)).region →
      ((update_location s d lat lon ts now).2.1).filter isCallbackAction =
        (List.range s.region_transition_callbacks.length).map fun j =>
          Action.callbackInvoked j d oldLoc.region
            (makeLocationUpdate s d lat lon (ts.getD now)).region
            (makeLocationUpdate s d lat lon (ts.getD now))) ∧
    (s.driver_locations d = none →
      ((update_location s d lat lon ts now).2.1).filter
        isCallbackAction = []) := by
  constructor
  · intro oldLoc hold hchange
    show (check_region_transition s d
        (makeLocationUpdate s d lat lon (ts.getD now)) ++
        [Action.storeCommit d
          (makeLocationUpdate s d lat lon (ts.getD now))]).filter
      isCallbackAction = _
    simp only [check_region_transition, hold]
    rw [if_neg hchange, runCallbackLoop_eq]
    simp only [List.filter_append, List.filter_cons, List.filter_nil,
      isCallbackAction]
    rw [List.filter_eq_self.mpr]
    · simp
    · rintro a ha
      obtain ⟨j, -, rfl⟩ := List.mem_map.mp ha
      rfl
  · intro hnone
    show (check_region_transition s d
        (makeLocationUpdate s d lat lon (ts.getD now)) ++
        [Action.storeCommit d
          (makeLocationUpdate s d lat lon (ts.getD now))]).filter
      isCallbackAction = _
    simp [check_region_transition, hnone, isCallbackAction]

/-- C7 witness: the spec scenario — a driver inside `philly_north` pings
far outside all regions; exactly one event with from `philly_north` and
`to` absent reaches the single registered callback. -/
theorem transition_fires_once_per_callback_witness :
    (update_location (initialState [noopCallback]) "d1" 39.99 (-75.15)
          (some 0) 0).1.driver_locations "d1" =
        some (makeLocationUpdate (initialState [noopCallback]) "d1" 39.99
          (-75.15) 0) ∧
    ((update_location
        (update_location (initialState [noopCallback]) "d1" 39.99 (-75.15)
          (some 0) 0).1 "d1" 39.5 (-74.5) (some 1) 1).2.1).filter
        isCallbackAction =
      (List.range (update_location (initialState [noopCallback]) "d1" 39.99
          (-75.15) (some 0)
          0).1.region_transition_callbacks.length).map fun j =>
        Action.callbackInvoked j "d1"
          (makeLocationUpdate (initialState [noopCallback]) "d1" 39.99
            (-75.15) 0).region
          (makeLocationUpdate
            (update_location (initialState [noopCallback]) "d1" 39.99 (-75.15)
              (some 0) 0).1 "d1" 39.5 (-74.5) 1).region
          (makeLocationUpdate
            (update_location (initialState [noopCallback]) "d1" 39.99 (-75.15)
              (some 0) 0).1 "d1" 39.5 (-74.5) 1) := by
  have hold : (update_location (initialState [noopCallback]) "d1" 39.99
      (-75.15) (some 0) 0).1.driver_locations "d1" =
      some (makeLocationUpdate (initialState [noopCallback]) "d1" 39.99
        (-75.15) 0) :=
    update_location_store_self (initialState [noopCallback]) "d1" 39.99
      (-75.15) (some 0) 0
  refine ⟨hold, ?_⟩
  exact (transition_fires_once_per_callback
    (update_location (initialState [noopCallback]) "d1" 39.99 (-75.15)
      (some 0) 0).1 "d1" 39.5 (-74.5) (some 1) 1).1
    (makeLocationUpdate (initialState [noopCallback]) "d1" 39.99 (-75.15) 0)
    hold
    (by simp [makeLocationUpdate, initialState, update_location,
      detect_region_sample_inside, detect_region_sample_outside])

/-- C6: `_detect_region` returns the name of the first region in
registration order that is active and whose polygon contains the point,
and returns `none` exactly when no active region contains it; inactive
regions are never returned. -/
theorem detect_region_first_match (regions : List DeliveryRegion)
    (lat lon : ℚ) :
    (∀ n, detect_region regions lat lon = some n →
      ∃ i, ∃ hi : i < regions.length,
        (regions.get ⟨i, hi⟩).name = n ∧
        (regions.get ⟨i, hi⟩).is_active = true ∧
        polygonContains (regions.get ⟨i, hi⟩).polygon ⟨lon, lat⟩ = true ∧
        ∀ j (hj : j < i),
          ¬((regions.get ⟨j, Nat.lt_trans hj hi⟩).is_active = true ∧
            polygonContains (regions.get ⟨j, Nat.lt_trans hj hi⟩).polygon
              ⟨lon, lat⟩ = true)) ∧
    (detect_region regions lat lon = none ↔
      ∀ r ∈ regions, r.is_active = true →
        polygonContains r.polygon ⟨lon, lat⟩ = false) := by
  refine ⟨?_, detect_region_eq_none_iff regions lat lon⟩
  intro n hn
  simp only [detect_region, Option.map_eq_some'] at hn
  obtain ⟨r, hfind, hname⟩ := hn
  rw [List.find?_eq_some_iff_getElem] at hfind
  obtain ⟨hpr, i, hi, hget, hprev⟩ := hfind
  simp only [Bool.and_eq_true] at hpr
  refine ⟨i, hi, ?_, ?_, ?_, ?_⟩
  · rw [List.get_eq_getElem, hget]; exact hname
  · rw [List.get_eq_getElem, hget]; exact hpr.1
  · rw [List.get_eq_getElem, hget]; exact hpr.2
  · intro j hj hcontra
    obtain ⟨hact, hcont⟩ := hcontra
    have hj2 := hprev j hj
    rw [List.get_eq_getElem] at hact hcont
    simp [hact, hcont] at hj2

/-- C6 witness: at latitude 39.99, longitude -75.15 the classifier
returns the first matching region, `philly_north`. -/
theorem detect_region_first_match_witness :
    detect_region initialRegions 39.99 (-75.15) = some "philly_north" ∧
    ∃ i, ∃ hi : i < initialRegions.length,
      (initialRegions.get ⟨i, hi⟩).name = "philly_north" ∧
      (initialRegions.get ⟨i, hi⟩).is_active = true ∧
      polygonContains (initialRegions.get ⟨i, hi⟩).polygon
        ⟨-75.15, 39.99⟩ = true ∧
      ∀ j (hj : j < i),
        ¬((initialRegions.get ⟨j, Nat.lt_trans hj hi⟩).is_active = true ∧
          polygonContains
            (initialRegions.get ⟨j, Nat.lt_trans hj hi⟩).polygon
            ⟨-75.15, 39.99⟩ = true) :=
  ⟨detect_region_sample_inside,
    (detect_region_first_match initialRegions 39.99 (-75.15)).1
      "philly_north" detect_region_sample_inside⟩

theorem initialRegions_names_nodup :
    (initialRegions.map DeliveryRegion.name).Nodup := by
  decide

/-- C8: a point lying exactly on a polygon edge of a configured region
classifies consistently under one fixed convention: the point-in-polygon
test always answers false for that region (boundary excluded, as with
shapely contains), the classifier never returns that region for the
point, and classification is a pure function of the coordinate and the
registry, so repeated calls agree. -/
theorem boundary_point_classified_outside (r : DeliveryRegion)
    (hr : r ∈ initialRegions) (px py : ℚ)
    (h : pointOnBoundary r.polygon ⟨px, py⟩ = true) :
    polygonContains r.polygon ⟨px, py⟩ = false ∧
    detect_region initialRegions py px ≠ some r.name ∧
    detect_region initialRegions py px =
      detect_region initialRegions py px := by
  have hcf : polygonContains r.polygon ⟨px, py⟩ = false := by
    simp [polygonContains, h]
  refine ⟨hcf, fun hdet => ?_, rfl⟩
  obtain ⟨r2, hr2, hname, hact, hcont⟩ :=
    detect_region_eq_some_elim initialRegions py px r.name hdet
  have heq : r2 = r :=
    List.inj_on_of_nodup_map initialRegions_names_nodup hr2 hr hname
  rw [heq] at hcont
  exact absurd hcont (by simp [hcf])

/-- C8 witness: the point (longitude -75.2, latitude 40.0) lies exactly
on the west edge of the `philly_north` square and is classified outside
that polygon. -/
theorem boundary_point_classified_outside_witness :
    (⟨"philly_north",
        [⟨-75.2000, 39.9800⟩, ⟨-75.1200, 39.9800⟩, ⟨-75.1200, 40.0200⟩,
          ⟨-75.2000, 40.0200⟩], true⟩ : DeliveryRegion) ∈ initialRegions ∧
    pointOnBoundary
      [(⟨-75.2000, 39.9800⟩ : Coord), ⟨-75.1200, 39.9800⟩,
        ⟨-75.1200, 40.0200⟩, ⟨-75.2000, 40.0200⟩] ⟨-75.2000, 40.0⟩ = true ∧
    polygonContains
      [(⟨-75.2000, 39.9800⟩ : Coord), ⟨-75.1200, 39.9800⟩,
        ⟨-75.1200, 40.0200⟩, ⟨-75.2000, 40.0200⟩] ⟨-75.2000, 40.0⟩ = false := by
  have hmem : (⟨"philly_north",
      [⟨-75.2000, 39.9800⟩, ⟨-75.1200, 39.9800⟩, ⟨-75.1200, 40.0200⟩,
        ⟨-75.2000, 40.0200⟩], true⟩ : DeliveryRegion) ∈ initialRegions := by
    simp [initialRegions]
  have hb : pointOnBoundary
      [(⟨-75.2000, 39.9800⟩ : Coord), ⟨-75.1200, 39.9800⟩,
        ⟨-75.1200, 40.0200⟩, ⟨-75.2000, 40.0200⟩] ⟨-75.2000, 40.0⟩ = true := by
    norm_num [pointOnBoundary, polygonEdges, onSegment]
  exact ⟨hmem, hb,
    (boundary_point_classified_outside _ hmem (-75.2000) 40.0 hb).1⟩

/-- C9: for every interleaving of the shared-store operations of two
concurrent `update_location` calls for the same driver, the final
stored entry for that driver is the complete record (coordinate, region
and timestamp) produced by one of the two updates — never a mixture
matching neither. -/
theorem concurrent_updates_no_mixture (s : ServiceState) (d : String)
    (lat1 lon1 : ℚ) (t1 : ℤ) (lat2 lon2 : ℚ) (t2 : ℤ)
    (l : List (Bool × ThreadStep)) (hl : isInterleaving l = true) :
    run_concurrent_updates s d lat1 lon1 t1 lat2 lon2 t2 l d =
        some (makeLocationUpdate s d lat1 lon1 t1) ∨
      run_concurrent_updates s d lat1 lon1 t1 lat2 lon2 t2 l d =
        some (makeLocationUpdate s d lat2 lon2 t2) := by
  have hw : ∃ t, (t, ThreadStep.writeStep) ∈ l := by
    simp only [isInterleaving, Bool.and_eq_true, beq_iff_eq] at hl
    refine ⟨true, List.mem_of_mem_filter (p := fun a => a.1) ?_⟩
    rw [hl.1]
    exact List.mem_cons_of_mem _ (List.mem_cons_self _ _)
  have := runThreadSteps_write_wins
    (fun t => if t then makeLocationUpdate s d lat1 lon1 t1
              else makeLocationUpdate s d lat2 lon2 t2) d
    (by intro t; cases t <;> rfl) l s.driver_locations hw
  simpa [run_concurrent_updates] using this

/-- C9 witness: the interleaving that runs thread `true` first. -/
theorem concurrent_updates_no_mixture_witness :
    isInterleaving
      [(true, ThreadStep.readStep), (true, ThreadStep.writeStep),
        (false, ThreadStep.readStep), (false, ThreadStep.writeStep)] = true ∧
    (run_concurrent_updates (initialState []) "d1" 39.99 (-75.15) 0 39.5
          (-74.5) 1
          [(true, ThreadStep.readStep), (true, ThreadStep.writeStep),
            (false, ThreadStep.readStep), (false, ThreadStep.writeStep)] "d1" =
        some (makeLocationUpdate (initialState []) "d1" 39.99 (-75.15) 0) ∨
      run_concurrent_updates (initialState []) "d1" 39.99 (-75.15) 0 39.5
          (-74.5) 1
          [(true, ThreadStep.readStep), (true, ThreadStep.writeStep),
            (false, ThreadStep.readStep), (false, ThreadStep.writeStep)] "d1" =
        some (makeLocationUpdate (initialState []) "d1" 39.5 (-74.5) 1)) :=
  ⟨by decide,
    concurrent_updates_no_mixture (initialState []) "d1" 39.99 (-75.15) 0
      39.5 (-74.5) 1 _ (by decide)⟩

/-- C1 (counterexample): a `POST /location-update` with latitude 200 is
not rejected: the route returns HTTP 200 with status success and a
store entry is created for the driver, refuting the claim that an
out-of-range coordinate fails validation with the store left
unchanged. -/
theorem out_of_range_update_not_rejected :
    (location_update_route (initialState []) "d1" 200 (-75.15) none 0).2.2.1 =
        200 ∧
    (location_update_route (initialState []) "d1" 200 (-75.15)
        none 0).2.2.2.status = "success" ∧
    (location_update_route (initialState []) "d1" 200 (-75.15)
        none 0).1.driver_locations "d1" ≠ none := by
  refine ⟨rfl, rfl, ?_⟩
  have hs : (location_update_route (initialState []) "d1" 200 (-75.15)
      none 0).1.driver_locations "d1" =
      some (makeLocationUpdate (initialState []) "d1" 200 (-75.15) 0) :=
    update_location_store_self (initialState []) "d1" 200 (-75.15) none 0
  rw [hs]
  simp

/-- C1 (amended): the location-update path performs no range validation
on coordinates: for every latitude outside [-90, 90] or longitude
outside [-180, 180] (any value that parses as a number), the route
returns HTTP 200 with status success, the coordinate is classified to
no region, and the new state is committed to the store. -/
theorem out_of_range_update_accepted (s : ServiceState)
    (hregs : s.delivery_regions = initialRegions) (d : String)
    (lat lon : ℚ) (ts : Option ℤ) (now : ℤ)
    (h : lat < -90 ∨ 90 < lat ∨ lon < -180 ∨ 180 < lon) :
    (location_update_route s d lat lon ts now).2.2.1 = 200 ∧
    (location_update_route s d lat lon ts now).2.2.2.status = "success" ∧
    (location_update_route s d lat lon ts now).2.2.2.region = none ∧
    (location_update_route s d lat lon ts now).1.driver_locations d =
      some (makeLocationUpdate s d lat lon (ts.getD now)) := by
  refine ⟨rfl, rfl, ?_, update_location_store_self s d lat lon ts now⟩
  show (makeLocationUpdate s d lat lon (ts.getD now)).region = none
  simp only [makeLocationUpdate, hregs]
  exact detect_region_out_of_range lat lon h

/-- C1 (amended) witness: latitude 200 on a fresh service. -/
theorem out_of_range_update_accepted_witness :
    ((200 : ℚ) < -90 ∨ (90 : ℚ) < 200 ∨ (-75.15 : ℚ) < -180 ∨
        (180 : ℚ) < -75.15) ∧
    ((location_update_route (initialState []) "d1" 200 (-75.15) none
          0).2.2.1 = 200 ∧
      (location_update_route (initialState []) "d1" 200 (-75.15) none
          0).2.2.2.status = "success" ∧
      (location_update_route (initialState []) "d1" 200 (-75.15) none
          0).2.2.2.region = none ∧
      (location_update_route (initialState []) "d1" 200 (-75.15) none
          0).1.driver_locations "d1" =
        some (makeLocationUpdate (initialState []) "d1" 200 (-75.15) 0)) :=
  ⟨by norm_num,
    out_of_range_update_accepted (initialState []) rfl "d1" 200 (-75.15)
      none 0 (by norm_num)⟩

/-- C10 witness: an update for driver d1 leaves driver d2 untouched. -/
theorem update_location_frame_witness :
    ("d2" : String) ≠ "d1" ∧
    ((update_location (initialState []) "d1" 39.99 (-75.15) (some 0) 0).1.driver_locations
        "d2" = (initialState []).driver_locations "d2" ∧
      (update_location (initialState []) "d1" 39.99 (-75.15) (some 0) 0).1.delivery_regions =
        (initialState []).delivery_regions ∧
      (update_location (initialState []) "d1" 39.99 (-75.15) (some 0) 0).1.driver_locations
        "d1" = some (makeLocationUpdate (initialState []) "d1" 39.99 (-75.15) 0)) :=
  ⟨by decide,
    update_location_frame (initialState []) "d1" 39.99 (-75.15) (some 0) 0 "d2"
      (by decide)⟩

end TTK
